import Mathlib

/-!
# Verification of the conversation/session client of `native-ai-agent`

Shallow embedding of the repository's client-side conversation-session logic:

* namespace `Api` embeds the standalone api module (`src/unnamed/part_000`):
  `sendMessage`, `getConversationHistory`, `createNewConversation`,
  `getAllConversations`, `deleteConversation`, together with its module-level
  store (`mockConversations`, `sessionIdMap`).
* namespace `Demo` embeds the in-component client of `src/front/src/demo.tsx`:
  `apiSendMessage` (which adds the 5-second duplicate-submission guard),
  `getConversationHistory`, `getTitleFromMessages`, the `bubbleItems`
  dedup-and-sort view, and the `onSubmit` handler with its `isLoading` guard.

Impure ingredients are made explicit parameters: every `Date.now()` reading is a
`Nat` argument (`now` for the readings before the network call, `now2` for the
readings after it), `Math.random()` is a `rand : Nat` argument, and the network
round trip is a `FetchOutcome` argument (`ok data` for a 2xx response with a
parsed JSON body, `fail msg` for a rejected fetch, a non-2xx status or a body
parse failure — all of which reach the same `catch` block in the source).
JavaScript records are association lists in insertion order, as `Object`
iteration on them is; `x[k] = v` is `setEntry`, `delete x[k]` is `eraseEntry`,
and reading `x[k]` with a fallback for `undefined` is `(lookup k).getD`.
JavaScript's stable `Array.prototype.sort` is modelled by `List.insertionSort`,
which computes the same (stable) result for the total preorders used here.
-/

structure Message where
  id : String
  content : String
  isUser : Bool
  timestamp : Nat
  loading : Bool := false
deriving DecidableEq

/-- The JSON body of a 2xx response, as the source reads it: `data.reply` and
the optional `data.session_id` (absent field modelled as `none`). -/
structure ResponseData where
  reply : String
  session_id : Option String
deriving DecidableEq

/-- Result of the `fetch` round trip as observed by the source's `try` block. -/
inductive FetchOutcome where
  | ok (data : ResponseData)
  | fail (errMessage : String)
deriving DecidableEq

/-- The `metadata` record of the returned `ChatResponse` object: the source
builds one shape on success and another in the `catch` block. -/
inductive ChatMetadata where
  | success (conversation_id : String) (session_id : Option String) (message_id : String)
  | failure (error_code : String) (conversation_id : String) (error_message : String)
deriving DecidableEq

structure ChatResponse where
  reply : String
  status : String
  metadata : ChatMetadata
deriving DecidableEq

/-- JavaScript `String.prototype.trim`: strips leading and trailing
whitespace. -/
def jsTrim (s : String) : String :=
  List.asString
    (((s.data.dropWhile Char.isWhitespace).reverse.dropWhile Char.isWhitespace).reverse)

/-- JavaScript `record[k] = v` on a string-keyed object: replaces the value of
an existing key in place, appends a fresh key at the end (insertion order). -/
def setEntry {β : Type} (k : String) (v : β) : List (String × β) → List (String × β)
  | [] => [(k, v)]
  | (k2, v2) :: rest => if k2 = k then (k, v) :: rest else (k2, v2) :: setEntry k v rest

/-- JavaScript `delete record[k]`. -/
def eraseEntry {β : Type} (k : String) : List (String × β) → List (String × β)
  | [] => []
  | (k2, v2) :: rest => if k2 = k then rest else (k2, v2) :: eraseEntry k rest


namespace Api

/-- The JSON body `{content, session_id, user_id}` POSTed by the api module. -/
structure ApiRequest where
  content : String
  session_id : String
  user_id : String
deriving DecidableEq

/-- The module-level mutable state of `src/unnamed/part_000`:
`mockConversations` and `sessionIdMap`. -/
structure ApiState where
  mockConversations : List (String × List Message)
  sessionIdMap : List (String × String)
deriving DecidableEq

def fallbackReply : String := "抱歉，我暂时无法连接到服务器。请稍后再试或检查您的网络连接。"

/-- The store as initialised at module load (at wall-clock time `t0`):
conversation `"1"` holds the greeting, the session map is empty. -/
def initialState (t0 : Nat) : ApiState :=
  { mockConversations := [("1",
      [{ id := "system-init-1",
         content := "你好！我是Native AI, 请问有什么我可以帮助您的？",
         isUser := false, timestamp := t0 - 3600000 }])],
    sessionIdMap := [] }

/-- The freshly generated session identifier
`'session-' + Date.now() + '-' + Math.floor(Math.random() * 1000000)`. -/
def genSessionId (now rand : Nat) : String :=
  "session-" ++ Nat.repr now ++ "-" ++ Nat.repr rand

/-- `sendMessage` of `src/unnamed/part_000`: ensures the conversation exists,
unconditionally appends the user message, resolves or lazily creates the
session binding, issues the request, and either records the reply (updating
the binding on a changed truthy `session_id`) or, in the `catch` block,
records the fixed fallback message. Returns the `ChatResponse`, the request
body that was issued, and the updated module state. -/
def sendMessage (message : String) (conversationId : String) (now now2 rand : Nat)
    (outcome : FetchOutcome) (s : ApiState) : ChatResponse × ApiRequest × ApiState :=
  let conv0 := (s.mockConversations.lookup conversationId).getD []
  let userMessage : Message :=
    { id := "user-" ++ Nat.repr now, content := message, isUser := true, timestamp := now }
  let conv1 := conv0 ++ [userMessage]
  let stored := (s.sessionIdMap.lookup conversationId).getD ""
  let sessionId := if stored = "" then genSessionId now rand else stored
  let smap1 := if stored = "" then setEntry conversationId sessionId s.sessionIdMap
               else s.sessionIdMap
  let request : ApiRequest :=
    { content := message, session_id := sessionId, user_id := "huyida-test" }
  match outcome with
  | .ok data =>
    let respSid := data.session_id.getD ""
    let smap2 := if respSid ≠ "" ∧ respSid ≠ sessionId then setEntry conversationId respSid smap1
                 else smap1
    let systemMessage : Message :=
      { id := "system-" ++ Nat.repr now2, content := data.reply, isUser := false,
        timestamp := now2 }
    ({ reply := data.reply, status := "success",
       metadata := .success conversationId data.session_id systemMessage.id },
     request,
     { mockConversations := setEntry conversationId (conv1 ++ [systemMessage]) s.mockConversations,
       sessionIdMap := smap2 })
  | .fail err =>
    let errorMessage : Message :=
      { id := "system-error-" ++ Nat.repr now2, content := fallbackReply, isUser := false,
        timestamp := now2 }
    ({ reply := fallbackReply, status := "error",
       metadata := .failure "API_CONNECTION_ERROR" conversationId err },
     request,
     { mockConversations := setEntry conversationId (conv1 ++ [errorMessage]) s.mockConversations,
       sessionIdMap := smap1 })

def getConversationHistory (s : ApiState) (conversationId : String) : List Message :=
  (s.mockConversations.lookup conversationId).getD []

/-- `createNewConversation` of `src/unnamed/part_000`: the new key is
the decimal print of `Date.now()`. -/
def createNewConversation (now : Nat) (s : ApiState) : String × ApiState :=
  let newId := Nat.repr now
  let greeting : Message :=
    { id := "system-init-" ++ newId,
      content := "您好！我是Native AI, 请问有什么我可以帮助您的？",
      isUser := false, timestamp := now }
  (newId, { s with mockConversations := setEntry newId [greeting] s.mockConversations })

structure ConvEntry where
  id : String
  title : String
  lastMessage : String
  timestamp : Nat
deriving DecidableEq

/-- The title expression inside `getAllConversations`: first user message,
truncated at 20 characters with an ellipsis, else the placeholder built from
the last four characters of the key. -/
def titleOf (messages : List Message) (id : String) : String :=
  match (messages.filter (·.isUser)).head? with
  | some first => if 20 < first.content.length then first.content.take 20 ++ "..."
                  else first.content
  | none => "火车票用户咨询 " ++ id.drop (id.length - 4)

/-- One element of the array built by `getAllConversations`. Reading
`messages[messages.length - 1].content` of an empty conversation would throw in
the source, hence the `Option`. -/
def convEntry (id : String) (messages : List Message) : Option ConvEntry :=
  match messages.getLast? with
  | none => none
  | some last =>
    some { id := id, title := titleOf messages id,
           lastMessage := last.content.take 30 ++ (if 30 < last.content.length then "..." else ""),
           timestamp := last.timestamp }

/-- `Array.prototype.map` over a callback that can throw: the whole map throws
(`none`) as soon as one element does. -/
def mapOrNone {α β : Type} (f : α → Option β) : List α → Option (List β)
  | [] => some []
  | a :: l => match f a, mapOrNone f l with
              | some b, some bl => some (b :: bl)
              | _, _ => none

/-- `getAllConversations` of `src/unnamed/part_000`: one entry per stored
conversation, then sorted by the comparator `(a, b) => b.timestamp - a.timestamp`
(descending, stable). -/
def getAllConversations (s : ApiState) : Option (List ConvEntry) :=
  (mapOrNone (fun p => convEntry p.1 p.2) s.mockConversations).map
    (fun entries => List.insertionSort (fun a b => b.timestamp ≤ a.timestamp) entries)

/-- `deleteConversation` of `src/unnamed/part_000`: drops the history entry if
present and reports whether it was; `sessionIdMap` is not touched. -/
def deleteConversation (conversationId : String) (s : ApiState) : Bool × ApiState :=
  match s.mockConversations.lookup conversationId with
  | some _ => (true, { s with mockConversations := eraseEntry conversationId s.mockConversations })
  | none => (false, s)

/-- The operations that mutate the api module's state, with their impure
inputs made explicit. -/
inductive ApiOp where
  | send (message conversationId : String) (now now2 rand : Nat) (outcome : FetchOutcome)
  | createNew (now : Nat)
  | delete (conversationId : String)
deriving DecidableEq

def applyOp (s : ApiState) : ApiOp → ApiState
  | .send m c now now2 rand outcome => (sendMessage m c now now2 rand outcome s).2.2
  | .createNew now => (createNewConversation now s).2
  | .delete c => (deleteConversation c s).2

def applyOps (t0 : Nat) (ops : List ApiOp) : ApiState :=
  ops.foldl applyOp (initialState t0)

/-- A state of the api module store that some run of the program can produce. -/
def Reachable (s : ApiState) : Prop := ∃ t0 ops, s = applyOps t0 ops

end Api

namespace Demo

/-- The JSON body `{question, session_id, user_id}` POSTed by `demo.tsx`. -/
structure DemoRequest where
  question : String
  session_id : String
  user_id : String
deriving DecidableEq

/-- The module-level store of `demo.tsx`: its own `mockConversations` and
`sessionIdMap`. (`invoiceConversationIdMap` is declared but never used.) -/
structure DemoStore where
  mockConversations : List (String × List Message)
  sessionIdMap : List (String × String)
deriving DecidableEq

def fallbackReply : String := "抱歉，我暂时无法连接到服务器。请稍后再试或检查您的网络连接。"

/-- The duplicate-submission guard of `apiSendMessage`:
`msg.isUser && msg.content === message && Date.now() - msg.timestamp < 5000`
for some stored message. (A `msg.timestamp` in the future makes the JavaScript
difference negative, hence below 5000; truncated `Nat` subtraction gives 0,
hence also below 5000.) -/
def hasDuplicateMessage (conv : List Message) (message : String) (now : Nat) : Bool :=
  conv.any (fun msg => msg.isUser && msg.content == message && decide (now - msg.timestamp < 5000))

/-- `apiSendMessage` of `demo.tsx`: like `Api.sendMessage` but the user message
is only appended when `hasDuplicateMessage` does not fire. -/
def apiSendMessage (message : String) (conversationId : String) (now now2 rand : Nat)
    (outcome : FetchOutcome) (s : DemoStore) : ChatResponse × DemoRequest × DemoStore :=
  let conv0 := (s.mockConversations.lookup conversationId).getD []
  let userMessage : Message :=
    { id := "user-" ++ Nat.repr now, content := message, isUser := true, timestamp := now }
  let conv1 := if hasDuplicateMessage conv0 message now then conv0 else conv0 ++ [userMessage]
  let stored := (s.sessionIdMap.lookup conversationId).getD ""
  let sessionId := if stored = "" then Api.genSessionId now rand else stored
  let smap1 := if stored = "" then setEntry conversationId sessionId s.sessionIdMap
               else s.sessionIdMap
  let request : DemoRequest :=
    { question := message, session_id := sessionId, user_id := "huyida-test" }
  match outcome with
  | .ok data =>
    let respSid := data.session_id.getD ""
    let smap2 := if respSid ≠ "" ∧ respSid ≠ sessionId then setEntry conversationId respSid smap1
                 else smap1
    let systemMessage : Message :=
      { id := "system-" ++ Nat.repr now2, content := data.reply, isUser := false,
        timestamp := now2 }
    ({ reply := data.reply, status := "success",
       metadata := .success conversationId data.session_id systemMessage.id },
     request,
     { mockConversations := setEntry conversationId (conv1 ++ [systemMessage]) s.mockConversations,
       sessionIdMap := smap2 })
  | .fail err =>
    let errorMessage : Message :=
      { id := "system-error-" ++ Nat.repr now2, content := fallbackReply, isUser := false,
        timestamp := now2 }
    ({ reply := fallbackReply, status := "error",
       metadata := .failure "API_CONNECTION_ERROR" conversationId err },
     request,
     { mockConversations := setEntry conversationId (conv1 ++ [errorMessage]) s.mockConversations,
       sessionIdMap := smap1 })

def getConversationHistory (s : DemoStore) (conversationId : String) : List Message :=
  (s.mockConversations.lookup conversationId).getD []

/-- `getTitleFromMessages` of `demo.tsx`. -/
def getTitleFromMessages (messages : List Message) (id : String) : String :=
  match (messages.filter (·.isUser)).head? with
  | some first => if 20 < first.content.length then first.content.take 20 ++ "..."
                  else first.content
  | none => "Native AI " ++ id

/-- The dedup step of `bubbleItems`:
`.filter((msg, index, self) => self.findIndex(m => m.id === msg.id) === index)`,
keeping the first occurrence of each identifier. -/
def dedupById (msgs : List Message) : List Message :=
  (msgs.enum.filter (fun p => msgs.findIdx (fun m => m.id == p.2.id) == p.1)).map (·.2)

/-- The ordering `bubbleItems` applies to the rendered messages: dedup by
identifier, then the stable sort `.sort((a, b) => a.timestamp - b.timestamp)`. -/
def bubbleOrder (msgs : List Message) : List Message :=
  List.insertionSort (fun a b => a.timestamp ≤ b.timestamp) (dedupById msgs)

/-- The spec's `getHistory` view of a conversation: the stored history as
`bubbleItems` presents it. Reads the store, returns a fresh list (the source
sorts a copy produced by `filter`), and changes nothing. -/
def getHistory (s : DemoStore) (conversationId : String) : List Message :=
  bubbleOrder (getConversationHistory s conversationId)

/-- The component state that `onSubmit` consults and updates. Presentation-only
state (`conversationsItems`, `attachedFiles`, `activeModule` — every module
branch calls the same `apiSendMessage` — and the markdown rendering) is out of
scope, as the spec requires. -/
structure UiState where
  content : String
  isLoading : Bool
  messages : List Message
  isNewConversation : Bool
deriving DecidableEq

/-- `onSubmit` of `demo.tsx`, flattened over a completed round trip: the empty
and in-flight guards, the optimistic user and loading bubbles, the
`apiSendMessage` call, the reply bubble replacing the loading one, and the
`finally` that clears `isLoading`. `now` is `Date.now()` at submit time, `now2`
at reply time. Also returns the requests issued (empty when rejected). -/
def onSubmit (nextContent : String) (activeKey : String) (now now2 rand : Nat)
    (outcome : FetchOutcome) (ui : UiState) (s : DemoStore) :
    UiState × DemoStore × List DemoRequest :=
  if jsTrim nextContent = "" then (ui, s, [])
  else if ui.isLoading then (ui, s, [])
  else
    let userMessageId := "user-" ++ Nat.repr now
    let userMessage : Message :=
      { id := userMessageId, content := nextContent, isUser := true, timestamp := now }
    let loadingMessageId := "system-" ++ Nat.repr now ++ "-loading"
    let messages2 := ui.messages ++ [userMessage] ++
      [{ id := loadingMessageId, content := "", isUser := false, timestamp := now,
         loading := true }]
    let result := apiSendMessage nextContent activeKey now now2 rand outcome s
    let response := result.1
    let replyId := match response.metadata with
      | .success _ _ message_id => message_id
      | .failure _ _ _ => "system-" ++ Nat.repr now2
    let messages3 := (messages2.filter (fun msg =>
        !(msg.id == loadingMessageId) &&
        !(msg.isUser && msg.content == nextContent && decide (now2 - msg.timestamp < 3000) &&
          !(msg.id == userMessageId)))) ++
      [{ id := replyId, content := response.reply, isUser := false, timestamp := now2 }]
    ({ content := "", isLoading := false, messages := messages3, isNewConversation := false },
     result.2.2, [result.2.1])

end Demo

/-!
## Facts about `Nat.repr`

The source builds message identifiers from `Date.now()` via string
interpolation, so their distinctness reduces to facts about the decimal
rendering of natural numbers: `Nat.repr` is injective, never empty, and
consists of digit characters.
-/

namespace ReprFacts

def digitVal (c : Char) : Nat := c.toNat - '0'.toNat

def decodeDigits (l : List Char) : Nat := l.foldl (fun a c => a * 10 + digitVal c) 0

/-- Reference rendering of a natural number: most significant digit first. -/
def natDigits (n : Nat) : List Char :=
  if n < 10 then [Nat.digitChar n]
  else natDigits (n / 10) ++ [Nat.digitChar (n % 10)]
decreasing_by exact Nat.div_lt_self (by omega) (by omega)
def digitChars : List Char := ['0','1','2','3','4','5','6','7','8','9']

end ReprFacts

/-!
## Identifier uniqueness along runs of the api module

The invariant: after processing operations whose clock readings stayed below
`bound`, every stored message has an identifier that cannot clash with any
identifier generated at time `bound` or later.
-/

namespace Uniq

/-- `id` differs from every send-generated identifier whose embedded clock
reading is at least `bound`. -/
def IdOlder (bound : Nat) (id : String) : Prop :=
  ∀ t, bound ≤ t →
    id ≠ "user-" ++ Nat.repr t ∧ id ≠ "system-" ++ Nat.repr t ∧
    id ≠ "system-error-" ++ Nat.repr t

def FreshIds (bound : Nat) (msgs : List Message) : Prop :=
  (msgs.map Message.id).Nodup ∧ ∀ m ∈ msgs, IdOlder bound m.id

def InvAll (bound : Nat) (s : Api.ApiState) : Prop :=
  ∀ p ∈ s.mockConversations, FreshIds bound p.2

/-- Clock sanity of a run: every operation reads `Date.now()` strictly after
all readings of the preceding operations, and the reply reading of a send is
strictly after its submit reading. -/
def opsWF (bound : Nat) : List Api.ApiOp → Bool
  | [] => true
  | Api.ApiOp.send _ _ now now2 _ _ :: rest =>
    decide (bound ≤ now) && decide (now < now2) && opsWF (now2 + 1) rest
  | Api.ApiOp.createNew now :: rest => decide (bound ≤ now) && opsWF (now + 1) rest
  | Api.ApiOp.delete _ :: rest => opsWF bound rest
end Uniq

/-- The derived title in the words of the specification: the first user
message, truncated to 20 characters with an ellipsis appended when longer,
else a placeholder that references the conversation key. Stated independently
of `Api.titleOf` so the code's title computation can be compared against it. -/
def derivedTitleSpec (messages : List Message) (key : String) : String :=
  match (messages.filter (fun m => m.isUser)).head? with
  | some first =>
    if 20 < first.content.length then first.content.take 20 ++ "..." else first.content
  | none => "火车票用户咨询 " ++ key.drop (key.length - 4)

/-!
## Concrete states used by witnesses and counterexamples
-/

namespace Ex

def msgHi : Message := { id := "user-7", content := "hi", isUser := true, timestamp := 7 }

/-- A store holding one conversation `"c"` with one user message and a session
binding for `"c"`. -/
def storeC : Api.ApiState :=
  { mockConversations := [("c", [msgHi])], sessionIdMap := [("c", "s1")] }

/-- A demo store whose conversation `"0"` holds a user message reading `"hi"`
recorded at time 1000. -/
def storeDup : Demo.DemoStore :=
  { mockConversations :=
      [("0", [{ id := "user-1000", content := "hi", isUser := true, timestamp := 1000 }])],
    sessionIdMap := [] }

def emptyDemoStore : Demo.DemoStore := { mockConversations := [], sessionIdMap := [] }

def uiLoading : Demo.UiState :=
  { content := "", isLoading := true, messages := [], isNewConversation := false }

end Ex

/-!
## Theorems
-/

theorem lookup_setEntry_self {β : Type} (k : String) (v : β) (l : List (String × β)) :
    (setEntry k v l).lookup k = some v := by
  induction l with
  | nil => simp [setEntry]
  | cons p rest ih =>
    obtain ⟨k2, v2⟩ := p
    by_cases h : k2 = k
    · simp [setEntry, h, List.lookup]
    · simp [setEntry, h, List.lookup, beq_false_of_ne (Ne.symm h), ih]

theorem lookup_setEntry_ne {β : Type} {k k2 : String} (v : β) (l : List (String × β))
    (h : k2 ≠ k) : (setEntry k v l).lookup k2 = l.lookup k2 := by
  induction l with
  | nil => simp [setEntry, List.lookup, beq_false_of_ne h]
  | cons p rest ih =>
    obtain ⟨k3, v3⟩ := p
    by_cases h3 : k3 = k
    · subst h3
      simp [setEntry, List.lookup, beq_false_of_ne h, beq_false_of_ne (Ne.symm h)]
    · simp only [setEntry, if_neg h3, List.lookup]
      by_cases h2 : k3 == k2 <;> simp [h2, ih]

theorem mem_setEntry {β : Type} {k : String} {v : β} {l : List (String × β)} {p : String × β}
    (h : p ∈ setEntry k v l) : p = (k, v) ∨ p ∈ l := by
  induction l with
  | nil => simpa [setEntry] using h
  | cons q rest ih =>
    obtain ⟨k3, v3⟩ := q
    by_cases h3 : k3 = k
    · subst h3
      rcases (by simpa [setEntry] using h : p = (k3, v) ∨ p ∈ rest) with h1 | h1
      · exact Or.inl h1
      · exact Or.inr (List.mem_cons_of_mem _ h1)
    · rcases (by simpa [setEntry, h3] using h : p = (k3, v3) ∨ p ∈ setEntry k v rest) with h1 | h1
      · exact Or.inr (by simp [h1])
      · rcases ih h1 with h2 | h2
        · exact Or.inl h2
        · exact Or.inr (List.mem_cons_of_mem _ h2)

theorem mem_eraseEntry {β : Type} {k : String} {l : List (String × β)} {p : String × β}
    (h : p ∈ eraseEntry k l) : p ∈ l := by
  induction l with
  | nil => simpa [eraseEntry] using h
  | cons q rest ih =>
    obtain ⟨k3, v3⟩ := q
    by_cases h3 : k3 = k
    · exact List.mem_cons_of_mem _ (by simpa [eraseEntry, h3] using h)
    · rcases (by simpa [eraseEntry, h3] using h : p = (k3, v3) ∨ p ∈ eraseEntry k rest) with h1 | h1
      · simp [h1]
      · exact List.mem_cons_of_mem _ (ih h1)

theorem lookup_eraseEntry_ne {β : Type} {k k2 : String} (l : List (String × β))
    (h : k2 ≠ k) : (eraseEntry k l).lookup k2 = l.lookup k2 := by
  induction l with
  | nil => simp [eraseEntry]
  | cons p rest ih =>
    obtain ⟨k3, v3⟩ := p
    by_cases h3 : k3 = k
    · subst h3
      simp [eraseEntry, List.lookup, beq_false_of_ne h]
    · simp only [eraseEntry, if_neg h3, List.lookup]
      by_cases h2 : k3 == k2 <;> simp [h2, ih]

namespace ReprFacts

theorem natDigits_of_lt {n : Nat} (h : n < 10) : natDigits n = [Nat.digitChar n] := by
  rw [natDigits, if_pos h]

theorem natDigits_of_ge {n : Nat} (h : ¬ n < 10) :
    natDigits n = natDigits (n / 10) ++ [Nat.digitChar (n % 10)] := by
  rw [natDigits, if_neg h]

theorem toDigitsCore_eq (fuel : Nat) : ∀ (n : Nat) (ds : List Char), n < fuel →
    Nat.toDigitsCore 10 fuel n ds = natDigits n ++ ds := by
  induction fuel with
  | zero => omega
  | succ fuel ih =>
    intro n ds h
    rw [Nat.toDigitsCore]
    by_cases h10 : n / 10 = 0
    · have hn : n < 10 := by omega
      rw [if_pos h10, natDigits_of_lt hn, Nat.mod_eq_of_lt hn]
      simp
    · have hn : ¬ n < 10 := by omega
      rw [if_neg h10, ih (n / 10) _ (by omega), natDigits_of_ge hn]
      simp

theorem repr_eq_natDigits (n : Nat) : Nat.repr n = (natDigits n).asString := by
  show (Nat.toDigits 10 n).asString = (natDigits n).asString
  rw [Nat.toDigits, toDigitsCore_eq (n + 1) n [] (by omega)]
  simp

theorem digitVal_digitChar {d : Nat} (h : d < 10) : digitVal (Nat.digitChar d) = d := by
  interval_cases d <;> decide

theorem decodeDigits_append (l : List Char) (c : Char) :
    decodeDigits (l ++ [c]) = decodeDigits l * 10 + digitVal c := by
  simp [decodeDigits, List.foldl_append]

theorem decodeDigits_natDigits (n : Nat) : decodeDigits (natDigits n) = n := by
  induction n using Nat.strong_induction_on with
  | _ n ih =>
    by_cases h : n < 10
    · rw [natDigits_of_lt h]
      show 0 * 10 + digitVal (Nat.digitChar n) = n
      rw [digitVal_digitChar h]
      omega
    · rw [natDigits_of_ge h, decodeDigits_append,
        ih (n / 10) (Nat.div_lt_self (by omega) (by omega)),
        digitVal_digitChar (Nat.mod_lt n (by omega))]
      omega

theorem natDigits_injective {m n : Nat} (h : natDigits m = natDigits n) : m = n := by
  have h2 := congrArg decodeDigits h
  rwa [decodeDigits_natDigits, decodeDigits_natDigits] at h2

theorem string_ext {s t : String} (h : s.data = t.data) : s = t := by
  cases s
  cases t
  exact congrArg String.mk h

theorem repr_injective {m n : Nat} (h : Nat.repr m = Nat.repr n) : m = n := by
  apply natDigits_injective
  have h2 := congrArg String.data h
  rw [repr_eq_natDigits, repr_eq_natDigits] at h2
  exact h2

theorem repr_data (n : Nat) : (Nat.repr n).data = natDigits n := by
  rw [repr_eq_natDigits]
  rfl

theorem digitChar_mem {d : Nat} (h : d < 10) : Nat.digitChar d ∈ digitChars := by
  interval_cases d <;> decide

theorem natDigits_digits (n : Nat) : ∀ c ∈ natDigits n, c ∈ digitChars := by
  induction n using Nat.strong_induction_on with
  | _ n ih =>
    intro c hc
    by_cases h : n < 10
    · rw [natDigits_of_lt h] at hc
      rcases List.mem_singleton.mp hc with rfl
      exact digitChar_mem h
    · rw [natDigits_of_ge h] at hc
      rcases List.mem_append.mp hc with h2 | h2
      · exact ih (n / 10) (Nat.div_lt_self (by omega) (by omega)) c h2
      · rcases List.mem_singleton.mp h2 with rfl
        exact digitChar_mem (Nat.mod_lt n (by omega))

theorem natDigits_ne_nil (n : Nat) : natDigits n ≠ [] := by
  by_cases h : n < 10
  · rw [natDigits_of_lt h]
    simp
  · rw [natDigits_of_ge h]
    simp

/-- The decimal rendering of a number never starts with a non-digit character
such as a letter. -/
theorem natDigits_ne_cons {t : Nat} {c : Char} {l : List Char} (hc : c ∉ digitChars) :
    natDigits t ≠ c :: l := by
  cases hd : natDigits t with
  | nil => exact absurd hd (natDigits_ne_nil t)
  | cons c2 cs =>
    intro h
    injection h with h1 _
    exact hc (h1 ▸ natDigits_digits t c2 (hd ▸ List.mem_cons_self c2 cs))

end ReprFacts
/-!
## Disambiguation of the generated message identifiers

The source builds identifiers as one of `user-`, `system-`, `system-error-`
followed by a clock reading, or `system-init-` followed by the conversation
key. Identifiers of different shapes never coincide, and identifiers of the
same shape coincide only for equal clock readings.
-/

namespace IdFacts

open ReprFacts

theorem string_append_inj {p a b : String} (h : p ++ a = p ++ b) : a = b := by
  apply string_ext
  have h2 := congrArg String.data h
  rw [String.data_append, String.data_append] at h2
  exact List.append_cancel_left h2

theorem user_inj {t t2 : Nat} (h : "user-" ++ Nat.repr t = "user-" ++ Nat.repr t2) : t = t2 :=
  repr_injective (string_append_inj h)

theorem system_inj {t t2 : Nat} (h : "system-" ++ Nat.repr t = "system-" ++ Nat.repr t2) :
    t = t2 :=
  repr_injective (string_append_inj h)

theorem systemError_inj {t t2 : Nat}
    (h : "system-error-" ++ Nat.repr t = "system-error-" ++ Nat.repr t2) : t = t2 :=
  repr_injective (string_append_inj h)

theorem user_ne_system (t t2 : Nat) : "user-" ++ Nat.repr t ≠ "system-" ++ Nat.repr t2 := by
  intro h
  have h2 := congrArg String.data h
  rw [String.data_append, String.data_append, repr_data, repr_data,
    show "user-".data = 'u' :: ['s','e','r','-'] from rfl,
    show "system-".data = 's' :: ['y','s','t','e','m','-'] from rfl] at h2
  simp only [List.cons_append] at h2
  injection h2 with h3 _
  exact absurd h3 (by decide)

theorem user_ne_systemError (t t2 : Nat) :
    "user-" ++ Nat.repr t ≠ "system-error-" ++ Nat.repr t2 := by
  intro h
  have h2 := congrArg String.data h
  rw [String.data_append, String.data_append, repr_data, repr_data,
    show "user-".data = 'u' :: ['s','e','r','-'] from rfl,
    show "system-error-".data = 's' :: ['y','s','t','e','m','-','e','r','r','o','r','-'] from rfl]
    at h2
  simp only [List.cons_append] at h2
  injection h2 with h3 _
  exact absurd h3 (by decide)

theorem user_ne_systemInit (t : Nat) (k : String) :
    "user-" ++ Nat.repr t ≠ "system-init-" ++ k := by
  intro h
  have h2 := congrArg String.data h
  rw [String.data_append, String.data_append, repr_data,
    show "user-".data = 'u' :: ['s','e','r','-'] from rfl,
    show "system-init-".data = 's' :: ['y','s','t','e','m','-','i','n','i','t','-'] from rfl] at h2
  simp only [List.cons_append] at h2
  injection h2 with h3 _
  exact absurd h3 (by decide)

theorem system_ne_systemError (t t2 : Nat) :
    "system-" ++ Nat.repr t ≠ "system-error-" ++ Nat.repr t2 := by
  intro h
  rw [show ("system-error-" : String) = "system-" ++ "error-" from rfl,
    String.append_assoc] at h
  have h2 := congrArg String.data (string_append_inj h)
  rw [repr_data, String.data_append, show "error-".data = 'e' :: ['r','r','o','r','-'] from rfl]
    at h2
  simp only [List.cons_append] at h2
  exact ReprFacts.natDigits_ne_cons (by decide) h2

theorem system_ne_systemInit (t : Nat) (k : String) :
    "system-" ++ Nat.repr t ≠ "system-init-" ++ k := by
  intro h
  rw [show ("system-init-" : String) = "system-" ++ "init-" from rfl,
    String.append_assoc] at h
  have h2 := congrArg String.data (string_append_inj h)
  rw [repr_data, String.data_append, show "init-".data = 'i' :: ['n','i','t','-'] from rfl] at h2
  simp only [List.cons_append] at h2
  exact ReprFacts.natDigits_ne_cons (by decide) h2

theorem systemError_ne_systemInit (t : Nat) (k : String) :
    "system-error-" ++ Nat.repr t ≠ "system-init-" ++ k := by
  intro h
  rw [show ("system-error-" : String) = "system-" ++ "error-" from rfl,
    show ("system-init-" : String) = "system-" ++ "init-" from rfl,
    String.append_assoc, String.append_assoc] at h
  have h2 := congrArg String.data (string_append_inj h)
  rw [String.data_append, String.data_append,
    show "error-".data = 'e' :: ['r','r','o','r','-'] from rfl,
    show "init-".data = 'i' :: ['n','i','t','-'] from rfl] at h2
  simp only [List.cons_append] at h2
  injection h2 with h3 _
  exact absurd h3 (by decide)

end IdFacts

namespace Uniq

theorem idOlder_mono {b b2 : Nat} (h : b ≤ b2) {id : String} (hid : IdOlder b id) :
    IdOlder b2 id := fun t ht => hid t (le_trans h ht)

theorem freshIds_mono {b b2 : Nat} (h : b ≤ b2) {msgs : List Message}
    (hm : FreshIds b msgs) : FreshIds b2 msgs :=
  ⟨hm.1, fun m hmem => idOlder_mono h (hm.2 m hmem)⟩

theorem idOlder_init (b : Nat) (k : String) : IdOlder b ("system-init-" ++ k) :=
  fun t _ => ⟨Ne.symm (IdFacts.user_ne_systemInit t k),
    Ne.symm (IdFacts.system_ne_systemInit t k),
    Ne.symm (IdFacts.systemError_ne_systemInit t k)⟩

theorem idOlder_user {now b : Nat} (h : now < b) : IdOlder b ("user-" ++ Nat.repr now) :=
  fun t ht => ⟨fun he => by have := IdFacts.user_inj he; omega,
    IdFacts.user_ne_system now t, IdFacts.user_ne_systemError now t⟩

theorem idOlder_system {now b : Nat} (h : now < b) : IdOlder b ("system-" ++ Nat.repr now) :=
  fun t ht => ⟨Ne.symm (IdFacts.user_ne_system t now),
    fun he => by have := IdFacts.system_inj he; omega,
    IdFacts.system_ne_systemError now t⟩

theorem idOlder_systemError {now b : Nat} (h : now < b) :
    IdOlder b ("system-error-" ++ Nat.repr now) :=
  fun t ht => ⟨Ne.symm (IdFacts.user_ne_systemError t now),
    Ne.symm (IdFacts.system_ne_systemError t now),
    fun he => by have := IdFacts.systemError_inj he; omega⟩

/-- Appending the user message and the reply (or fallback) message of one send
keeps the identifiers of a conversation fresh. -/
theorem freshIds_append2 {b now now2 : Nat} {conv0 : List Message} (m1 m2 : Message)
    (hf : FreshIds b conv0) (hb : b ≤ now) (hn : now < now2)
    (h1 : m1.id = "user-" ++ Nat.repr now)
    (h2 : m2.id = "system-" ++ Nat.repr now2 ∨ m2.id = "system-error-" ++ Nat.repr now2) :
    FreshIds (now2 + 1) (conv0 ++ [m1, m2]) := by
  constructor
  · rw [List.map_append]
    refine List.Nodup.append hf.1 ?_ ?_
    · rw [List.map_cons, List.map_cons, List.map_nil, h1]
      refine List.nodup_cons.mpr ⟨?_, List.nodup_singleton _⟩
      simp only [List.mem_singleton]
      rcases h2 with h2 | h2 <;> rw [h2]
      · exact IdFacts.user_ne_system now now2
      · exact IdFacts.user_ne_systemError now now2
    · intro a ha hb2
      rcases List.mem_map.mp ha with ⟨m, hm, rfl⟩
      have hold := hf.2 m hm
      simp only [List.map_cons, List.map_nil, List.mem_cons, List.mem_nil_iff, or_false] at hb2
      rcases hb2 with hb2 | hb2
      · exact (hold now hb).1 (hb2.trans h1)
      · rcases h2 with h2 | h2
        · exact (hold now2 (by omega)).2.1 (hb2.trans h2)
        · exact (hold now2 (by omega)).2.2 (hb2.trans h2)
  · intro m hm
    rcases List.mem_append.mp hm with hm | hm
    · exact idOlder_mono (by omega) (hf.2 m hm)
    · rcases List.mem_cons.mp hm with rfl | hm
      · rw [h1]
        exact idOlder_user (by omega)
      · rcases List.mem_singleton.mp hm with rfl
        rcases h2 with h2 | h2 <;> rw [h2]
        · exact idOlder_system (by omega)
        · exact idOlder_systemError (by omega)

theorem freshIds_conv0 {b : Nat} {s : Api.ApiState} (hI : InvAll b s) (k : String) :
    FreshIds b ((s.mockConversations.lookup k).getD []) := by
  cases hl : s.mockConversations.lookup k with
  | none => exact ⟨List.nodup_nil, by simp⟩
  | some l =>
    obtain ⟨l1, l2, he, _⟩ := List.lookup_eq_some_iff.mp hl
    exact hI (k, l) (he ▸ List.mem_append_right l1 (List.mem_cons_self _ _))

theorem invAll_send {b now now2 : Nat} {s : Api.ApiState} (hI : InvAll b s)
    (hb : b ≤ now) (hn : now < now2) (message conversationId : String) (rand : Nat)
    (outcome : FetchOutcome) :
    InvAll (now2 + 1)
      ((Api.sendMessage message conversationId now now2 rand outcome s).2.2) := by
  have hc0 := freshIds_conv0 hI conversationId
  intro p hp
  cases outcome with
  | ok data =>
    rcases mem_setEntry (by simpa [Api.sendMessage] using hp) with rfl | hp2
    · have h3 := freshIds_append2
        { id := "user-" ++ Nat.repr now, content := message, isUser := true, timestamp := now }
        { id := "system-" ++ Nat.repr now2, content := data.reply, isUser := false,
          timestamp := now2 }
        hc0 hb hn rfl (Or.inl rfl)
      simpa [List.append_assoc] using h3
    · exact freshIds_mono (by omega) (hI p hp2)
  | fail err =>
    rcases mem_setEntry (by simpa [Api.sendMessage] using hp) with rfl | hp2
    · have h3 := freshIds_append2
        { id := "user-" ++ Nat.repr now, content := message, isUser := true, timestamp := now }
        { id := "system-error-" ++ Nat.repr now2, content := Api.fallbackReply,
          isUser := false, timestamp := now2 }
        hc0 hb hn rfl (Or.inr rfl)
      simpa [List.append_assoc] using h3
    · exact freshIds_mono (by omega) (hI p hp2)

theorem invAll_createNew {b now : Nat} {s : Api.ApiState} (hI : InvAll b s) (hb : b ≤ now) :
    InvAll (now + 1) ((Api.createNewConversation now s).2) := by
  intro p hp
  rcases mem_setEntry (by simpa [Api.createNewConversation] using hp) with rfl | hp2
  · refine ⟨by simp, ?_⟩
    intro m hm
    rcases List.mem_singleton.mp hm with rfl
    exact idOlder_init _ _
  · exact freshIds_mono (by omega) (hI p hp2)

theorem invAll_delete {b : Nat} {s : Api.ApiState} (hI : InvAll b s) (k : String) :
    InvAll b ((Api.deleteConversation k s).2) := by
  intro p hp
  cases hl : s.mockConversations.lookup k with
  | none =>
    exact hI p (by simpa [Api.deleteConversation, hl] using hp)
  | some l =>
    exact hI p (mem_eraseEntry (by simpa [Api.deleteConversation, hl] using hp))

theorem invAll_foldl : ∀ (ops : List Api.ApiOp) (b : Nat) (s : Api.ApiState),
    opsWF b ops = true → InvAll b s →
    ∀ p ∈ (ops.foldl Api.applyOp s).mockConversations, (p.2.map Message.id).Nodup := by
  intro ops
  induction ops with
  | nil => exact fun b s _ hI p hp => (hI p hp).1
  | cons op rest ih =>
    intro b s hwf hI
    cases op with
    | send m c now now2 rand outcome =>
      simp only [opsWF, Bool.and_eq_true, decide_eq_true_eq] at hwf
      exact ih (now2 + 1) _ hwf.2
        (invAll_send hI hwf.1.1 hwf.1.2 m c rand outcome)
    | createNew now =>
      simp only [opsWF, Bool.and_eq_true, decide_eq_true_eq] at hwf
      exact ih (now + 1) _ hwf.2 (invAll_createNew hI hwf.1)
    | delete c =>
      simp only [opsWF] at hwf
      exact ih b _ hwf (invAll_delete hI c)

theorem invAll_initial (t0 : Nat) : InvAll 0 (Api.initialState t0) := by
  intro p hp
  rcases List.mem_singleton.mp hp with rfl
  refine ⟨by simp, ?_⟩
  intro m hm
  rcases List.mem_singleton.mp hm with rfl
  exact idOlder_init 0 "1"

end Uniq
/-!
## Helper lemmas for the view operations
-/

theorem lookup_eraseEntry_self {β : Type} {k : String} {l : List (String × β)}
    (h : (l.map Prod.fst).Nodup) : (eraseEntry k l).lookup k = none := by
  induction l with
  | nil => simp [eraseEntry]
  | cons p rest ih =>
    obtain ⟨k3, v3⟩ := p
    simp only [List.map_cons, List.nodup_cons] at h
    by_cases h3 : k3 = k
    · subst h3
      rw [eraseEntry, if_pos rfl]
      apply List.lookup_eq_none_iff.mpr
      intro q hq
      have hne : k3 ≠ q.1 := by
        intro he
        exact h.1 (he ▸ List.mem_map_of_mem Prod.fst hq)
      simpa using hne
    · rw [eraseEntry, if_neg h3, List.lookup]
      rw [show (k == k3) = false from beq_false_of_ne (Ne.symm h3)]
      exact ih h.2

theorem dedupById_ids_nodup (msgs : List Message) :
    ((Demo.dedupById msgs).map Message.id).Nodup := by
  rw [Demo.dedupById, List.map_map]
  have henum : msgs.enum.Nodup := by
    apply List.Nodup.of_map Prod.fst
    rw [List.enum_map_fst]
    exact List.nodup_range _
  refine List.Nodup.map_on ?_ (henum.filter _)
  intro x hx y hy hxy
  have hx2 := List.mem_filter.mp hx
  have hy2 := List.mem_filter.mp hy
  have hxid : x.2.id = y.2.id := by simpa using hxy
  have hxi : msgs.findIdx (fun m => m.id == x.2.id) = x.1 := by
    have h2 := hx2.2
    simpa using h2
  have hyi : msgs.findIdx (fun m => m.id == y.2.id) = y.1 := by
    have h2 := hy2.2
    simpa using h2
  have hidx : x.1 = y.1 := by
    rw [← hxi, ← hyi]
    simp only [hxid]
  have hgx : msgs[x.1]? = some x.2 :=
    List.mk_mem_enum_iff_getElem?.mp (by simpa using hx2.1)
  have hgy : msgs[y.1]? = some y.2 :=
    List.mk_mem_enum_iff_getElem?.mp (by simpa using hy2.1)
  have hsnd : x.2 = y.2 := by
    rw [hidx] at hgx
    rw [hgx] at hgy
    exact Option.some.inj hgy
  exact Prod.ext hidx hsnd

theorem mapOrNone_convEntry : ∀ (l : List (String × List Message)),
    (∀ p ∈ l, p.2 ≠ []) →
    ∃ l0, Api.mapOrNone (fun p => Api.convEntry p.1 p.2) l = some l0 ∧
      l0.map Api.ConvEntry.id = l.map Prod.fst ∧
      ∀ e ∈ l0, ∃ p ∈ l, Api.convEntry p.1 p.2 = some e := by
  intro l
  induction l with
  | nil => exact fun _ => ⟨[], rfl, rfl, by simp⟩
  | cons p rest ih =>
    intro h
    obtain ⟨l0, hm, hkeys, hmem⟩ := ih (fun q hq => h q (List.mem_cons_of_mem _ hq))
    have hp : p.2 ≠ [] := h p (List.mem_cons_self _ _)
    obtain ⟨last, hlast⟩ : ∃ v, p.2.getLast? = some v := by
      cases hgl : p.2.getLast? with
      | none => exact absurd (by simpa using hgl) hp
      | some v => exact ⟨v, rfl⟩
    have hce : Api.convEntry p.1 p.2 =
        some { id := p.1, title := Api.titleOf p.2 p.1,
               lastMessage := last.content.take 30 ++
                 (if 30 < last.content.length then "..." else ""),
               timestamp := last.timestamp } := by
      rw [Api.convEntry, hlast]
    refine ⟨{ id := p.1, title := Api.titleOf p.2 p.1,
              lastMessage := last.content.take 30 ++
                (if 30 < last.content.length then "..." else ""),
              timestamp := last.timestamp } :: l0, ?_, ?_, ?_⟩
    · rw [Api.mapOrNone, hce, hm]
    · simp [hkeys]
    · intro e he
      rcases List.mem_cons.mp he with rfl | he2
      · exact ⟨p, List.mem_cons_self _ _, hce⟩
      · obtain ⟨q, hq, hq2⟩ := hmem e he2
        exact ⟨q, List.mem_cons_of_mem _ hq, hq2⟩

theorem applyOp_nonempty {s : Api.ApiState}
    (h : ∀ p ∈ s.mockConversations, p.2 ≠ []) (op : Api.ApiOp) :
    ∀ p ∈ (Api.applyOp s op).mockConversations, p.2 ≠ [] := by
  intro p hp
  cases op with
  | send m c now now2 rand outcome =>
    cases outcome with
    | ok data =>
      rcases mem_setEntry (by simpa [Api.applyOp, Api.sendMessage] using hp) with rfl | hp2
      · simp
      · exact h p hp2
    | fail err =>
      rcases mem_setEntry (by simpa [Api.applyOp, Api.sendMessage] using hp) with rfl | hp2
      · simp
      · exact h p hp2
  | createNew now =>
    rcases mem_setEntry (by simpa [Api.applyOp, Api.createNewConversation] using hp)
      with rfl | hp2
    · simp
    · exact h p hp2
  | delete c =>
    cases hl : s.mockConversations.lookup c with
    | none => exact h p (by simpa [Api.applyOp, Api.deleteConversation, hl] using hp)
    | some l =>
      exact h p (mem_eraseEntry (by simpa [Api.applyOp, Api.deleteConversation, hl] using hp))

theorem foldl_nonempty : ∀ (ops : List Api.ApiOp) (s : Api.ApiState),
    (∀ p ∈ s.mockConversations, p.2 ≠ []) →
    ∀ p ∈ (ops.foldl Api.applyOp s).mockConversations, p.2 ≠ [] := by
  intro ops
  induction ops with
  | nil => exact fun s h => h
  | cons op rest ih => exact fun s h => ih _ (applyOp_nonempty h op)

/-- One `apiSendMessage` call rewrites the conversation's history to: the old
history, then — unless the duplicate guard fired — the user message, then one
non-user message (the reply on success, the fallback on failure). -/
theorem apiSendMessage_hist (message conversationId : String) (now now2 rand : Nat)
    (outcome : FetchOutcome) (s : Demo.DemoStore) :
    ∃ m : Message, m.isUser = false ∧
      Demo.getConversationHistory
          (Demo.apiSendMessage message conversationId now now2 rand outcome s).2.2
          conversationId =
        (if Demo.hasDuplicateMessage (Demo.getConversationHistory s conversationId) message now
         then Demo.getConversationHistory s conversationId
         else Demo.getConversationHistory s conversationId ++
           [{ id := "user-" ++ Nat.repr now, content := message, isUser := true,
              timestamp := now }]) ++ [m] := by
  cases outcome with
  | ok data =>
    refine ⟨{ id := "system-" ++ Nat.repr now2, content := data.reply, isUser := false, timestamp := now2 }, rfl, ?_⟩
    by_cases hd : Demo.hasDuplicateMessage (Demo.getConversationHistory s conversationId)
        message now <;>
      simp [Demo.apiSendMessage, Demo.getConversationHistory, hd, lookup_setEntry_self]
  | fail err =>
    refine ⟨{ id := "system-error-" ++ Nat.repr now2, content := Demo.fallbackReply, isUser := false, timestamp := now2 }, rfl, ?_⟩
    by_cases hd : Demo.hasDuplicateMessage (Demo.getConversationHistory s conversationId)
        message now <;>
      simp [Demo.apiSendMessage, Demo.getConversationHistory, hd, lookup_setEntry_self]

/-!
## Claim theorems
-/

/-- C4: the session binding is created lazily on the first send — when no
binding exists, the issued request carries a freshly generated session
identifier and a binding exists afterwards — and when a successful response
carries a different (truthy) session identifier than was sent, the binding is
rotated to it, so that the next send for that conversation carries the new
identifier in its request body. -/
theorem sendMessage_session_binding :
    (∀ (message conversationId : String) (now now2 rand : Nat) (outcome : FetchOutcome)
        (s : Api.ApiState), s.sessionIdMap.lookup conversationId = none →
      (Api.sendMessage message conversationId now now2 rand outcome s).2.1.session_id =
        Api.genSessionId now rand ∧
      ((Api.sendMessage message conversationId now now2 rand
          outcome s).2.2.sessionIdMap.lookup conversationId).isSome) ∧
    (∀ (message message2 conversationId s1 s2 reply : String)
        (now now2 rand now3 now4 rand2 : Nat) (outcome2 : FetchOutcome) (s : Api.ApiState),
      s.sessionIdMap.lookup conversationId = some s1 → s1 ≠ "" → s2 ≠ "" → s2 ≠ s1 →
      ((Api.sendMessage message conversationId now now2 rand
          (.ok { reply := reply, session_id := some s2 }) s).2.2.sessionIdMap.lookup
            conversationId = some s2 ∧
        (Api.sendMessage message2 conversationId now3 now4 rand2 outcome2
          ((Api.sendMessage message conversationId now now2 rand
            (.ok { reply := reply, session_id := some s2 }) s).2.2)).2.1.session_id = s2)) := by
  constructor
  · intro message conversationId now now2 rand outcome s hnone
    cases outcome with
    | ok data =>
      refine ⟨by simp [Api.sendMessage, hnone], ?_⟩
      by_cases hc : data.session_id.getD "" ≠ "" ∧
          data.session_id.getD "" ≠ Api.genSessionId now rand <;>
        simp [Api.sendMessage, hnone, hc, lookup_setEntry_self]
    | fail err =>
      exact ⟨by simp [Api.sendMessage, hnone],
        by simp [Api.sendMessage, hnone, lookup_setEntry_self]⟩
  · intro message message2 conversationId s1 s2 reply now now2 rand now3 now4 rand2
      outcome2 s hsome h1 h2 h3
    have hfirst : (Api.sendMessage message conversationId now now2 rand
        (.ok { reply := reply, session_id := some s2 }) s).2.2.sessionIdMap.lookup
          conversationId = some s2 := by
      simp [Api.sendMessage, hsome, h1, h2, h3, lookup_setEntry_self]
    refine ⟨hfirst, ?_⟩
    generalize hS : (Api.sendMessage message conversationId now now2 rand
      (.ok { reply := reply, session_id := some s2 }) s).2.2 = S at hfirst ⊢
    cases outcome2 with
    | ok data => simp [Api.sendMessage, hfirst, h2]
    | fail err => simp [Api.sendMessage, hfirst, h2]

theorem sendMessage_session_binding_witness :
    (Ex.storeC.sessionIdMap.lookup "c" = some "s1" ∧ "s1" ≠ "" ∧ ("s2" : String) ≠ "" ∧
      ("s2" : String) ≠ "s1") ∧
    ((Api.sendMessage "hi" "c" 1 2 3
        (.ok { reply := "r", session_id := some "s2" }) Ex.storeC).2.2.sessionIdMap.lookup "c" =
          some "s2" ∧
      (Api.sendMessage "again" "c" 4 5 6 (.fail "x")
        ((Api.sendMessage "hi" "c" 1 2 3
          (.ok { reply := "r", session_id := some "s2" }) Ex.storeC).2.2)).2.1.session_id =
            "s2") :=
  ⟨⟨by decide, by decide, by decide, by decide⟩,
   sendMessage_session_binding.2 "hi" "again" "c" "s1" "s2" "r" 1 2 3 4 5 6 (.fail "x")
     Ex.storeC (by decide) (by decide) (by decide) (by decide)⟩

/-- C1 (amended): for every send of non-empty trimmed text, by the time
`apiSendMessage` resolves the conversation's stored history has gained exactly
one system message (the reply on success, the fallback on failure), and has
gained exactly one user message unless the duplicate-submission guard fired
(an identical-content user message recorded within the last 5 seconds), in
which case it has gained no user message. -/
theorem apiSendMessage_history_gain (message conversationId : String) (now now2 rand : Nat)
    (outcome : FetchOutcome) (s : Demo.DemoStore) (htrim : jsTrim message ≠ "") :
    (Demo.getConversationHistory
        (Demo.apiSendMessage message conversationId now now2 rand outcome s).2.2
        conversationId).countP (fun m => !m.isUser) =
      (Demo.getConversationHistory s conversationId).countP (fun m => !m.isUser) + 1 ∧
    (Demo.getConversationHistory
        (Demo.apiSendMessage message conversationId now now2 rand outcome s).2.2
        conversationId).countP (fun m => m.isUser) =
      (Demo.getConversationHistory s conversationId).countP (fun m => m.isUser) +
        (if Demo.hasDuplicateMessage (Demo.getConversationHistory s conversationId) message now
         then 0 else 1) := by
  obtain ⟨m, hm, hh⟩ := apiSendMessage_hist message conversationId now now2 rand outcome s
  rw [hh]
  by_cases hd : Demo.hasDuplicateMessage (Demo.getConversationHistory s conversationId)
      message now <;>
    simp [hd, List.countP_append, List.countP_cons, hm]

theorem apiSendMessage_history_gain_witness :
    (jsTrim "hello" ≠ "") ∧
    ((Demo.getConversationHistory
        (Demo.apiSendMessage "hello" "0" 2000 2001 0
          (.ok { reply := "ok", session_id := none }) Ex.storeDup).2.2
        "0").countP (fun m => !m.isUser) =
      (Demo.getConversationHistory Ex.storeDup "0").countP (fun m => !m.isUser) + 1 ∧
    (Demo.getConversationHistory
        (Demo.apiSendMessage "hello" "0" 2000 2001 0
          (.ok { reply := "ok", session_id := none }) Ex.storeDup).2.2
        "0").countP (fun m => m.isUser) =
      (Demo.getConversationHistory Ex.storeDup "0").countP (fun m => m.isUser) +
        (if Demo.hasDuplicateMessage (Demo.getConversationHistory Ex.storeDup "0") "hello" 2000
         then 0 else 1)) :=
  ⟨by decide, apiSendMessage_history_gain "hello" "0" 2000 2001 0
    (.ok { reply := "ok", session_id := none }) Ex.storeDup (by decide)⟩

/-- C1 counterexample: conversation `"0"` already holds the user message
`"hi"` recorded at time 1000; sending `"hi"` again at time 2000 (non-empty
after trimming, successful round trip) leaves the user-message count at 1 —
the history did not gain exactly one user message, refuting the claim as
stated. -/
theorem apiSendMessage_no_user_gain_counterexample :
    (jsTrim "hi" ≠ "") ∧
    (Demo.getConversationHistory Ex.storeDup "0").countP (fun m => m.isUser) = 1 ∧
    (Demo.getConversationHistory
        (Demo.apiSendMessage "hi" "0" 2000 2001 0
          (.ok { reply := "ok", session_id := none }) Ex.storeDup).2.2 "0").countP
      (fun m => m.isUser) = 1 ∧
    ¬ ((Demo.getConversationHistory
        (Demo.apiSendMessage "hi" "0" 2000 2001 0
          (.ok { reply := "ok", session_id := none }) Ex.storeDup).2.2 "0").countP
      (fun m => m.isUser) =
        (Demo.getConversationHistory Ex.storeDup "0").countP (fun m => m.isUser) + 1) := by
  exact ⟨by decide, by decide, by decide, by decide⟩

/-- C2: for every send, if the transport or protocol fails, `sendMessage` does
not raise (it is total and returns a result object): the result carries the
fixed fallback text as `reply`, status `"error"`, and an error code and error
message in the metadata; and the conversation's stored history gains the
fallback system message (after the already-appended user message). -/
theorem sendMessage_failure_fallback (message conversationId : String) (now now2 rand : Nat)
    (err : String) (s : Api.ApiState) :
    (Api.sendMessage message conversationId now now2 rand (.fail err) s).1 =
      { reply := Api.fallbackReply, status := "error",
        metadata := ChatMetadata.failure "API_CONNECTION_ERROR" conversationId err } ∧
    (Api.sendMessage message conversationId now now2 rand
        (.fail err) s).2.2.mockConversations.lookup conversationId =
      some (Api.getConversationHistory s conversationId ++
        [{ id := "user-" ++ Nat.repr now, content := message, isUser := true, timestamp := now },
         { id := "system-error-" ++ Nat.repr now2, content := Api.fallbackReply, isUser := false,
           timestamp := now2 }]) ∧
    (∀ (s2 : Demo.DemoStore),
      (Demo.apiSendMessage message conversationId now now2 rand (.fail err) s2).1 =
        { reply := Demo.fallbackReply, status := "error",
          metadata := ChatMetadata.failure "API_CONNECTION_ERROR" conversationId err } ∧
      (Demo.apiSendMessage message conversationId now now2 rand
          (.fail err) s2).2.2.mockConversations.lookup conversationId =
        some ((if Demo.hasDuplicateMessage (Demo.getConversationHistory s2 conversationId)
                  message now
               then Demo.getConversationHistory s2 conversationId
               else Demo.getConversationHistory s2 conversationId ++
                 [{ id := "user-" ++ Nat.repr now, content := message, isUser := true,
                    timestamp := now }]) ++
          [{ id := "system-error-" ++ Nat.repr now2, content := Demo.fallbackReply,
             isUser := false, timestamp := now2 }])) := by
  refine ⟨rfl, ?_, ?_⟩
  · simp [Api.sendMessage, Api.getConversationHistory, lookup_setEntry_self]
  · intro s2
    refine ⟨rfl, ?_⟩
    by_cases hd : Demo.hasDuplicateMessage (Demo.getConversationHistory s2 conversationId)
        message now <;>
      simp [Demo.apiSendMessage, Demo.getConversationHistory, hd, lookup_setEntry_self]

/-- C5: a second submit while a send is in flight (`isLoading = true`, the
conversation's `AwaitingReply` state) is rejected: the component state and the
stored histories are unchanged and no network request is issued. -/
theorem onSubmit_rejected_while_loading (nextContent activeKey : String) (now now2 rand : Nat)
    (outcome : FetchOutcome) (ui : Demo.UiState) (s : Demo.DemoStore)
    (h : ui.isLoading = true) :
    Demo.onSubmit nextContent activeKey now now2 rand outcome ui s = (ui, s, []) := by
  rw [Demo.onSubmit]
  by_cases ht : jsTrim nextContent = "" <;> simp [ht, h]

theorem onSubmit_rejected_while_loading_witness :
    (({ content := "", isLoading := true, messages := [], isNewConversation := false :
        Demo.UiState }).isLoading = true) ∧
    Demo.onSubmit "hello" "0" 1 2 3 (.fail "x")
        { content := "", isLoading := true, messages := [], isNewConversation := false }
        { mockConversations := [], sessionIdMap := [] } =
      ({ content := "", isLoading := true, messages := [], isNewConversation := false },
       { mockConversations := [], sessionIdMap := [] }, []) :=
  ⟨rfl, onSubmit_rejected_while_loading "hello" "0" 1 2 3 (.fail "x")
    { content := "", isLoading := true, messages := [], isNewConversation := false }
    { mockConversations := [], sessionIdMap := [] } rfl⟩

/-- C7 (amended): `deleteConversation` removes the conversation's history —
returning `true` exactly when the key was present and `false` for an unknown
key, never failing, and leaving every other conversation's history unchanged —
but it does NOT remove the session binding: `sessionIdMap` is left entirely
unchanged. (The key-uniqueness hypothesis is the representation invariant of a
JavaScript object.) -/
theorem deleteConversation_removes_history_only (conversationId : String) (s : Api.ApiState)
    (hkeys : (s.mockConversations.map Prod.fst).Nodup) :
    ((Api.deleteConversation conversationId s).1 = true ↔
      (s.mockConversations.lookup conversationId).isSome) ∧
    (Api.deleteConversation conversationId s).2.mockConversations.lookup conversationId = none ∧
    (Api.deleteConversation conversationId s).2.sessionIdMap = s.sessionIdMap ∧
    (∀ k, k ≠ conversationId →
      (Api.deleteConversation conversationId s).2.mockConversations.lookup k =
        s.mockConversations.lookup k) := by
  cases hl : s.mockConversations.lookup conversationId with
  | none =>
    exact ⟨by simp [Api.deleteConversation, hl], by simp [Api.deleteConversation, hl],
      by simp [Api.deleteConversation, hl], fun k hk => by simp [Api.deleteConversation, hl]⟩
  | some l =>
    refine ⟨by simp [Api.deleteConversation, hl], ?_, by simp [Api.deleteConversation, hl],
      fun k hk => ?_⟩
    · simp only [Api.deleteConversation, hl]
      exact lookup_eraseEntry_self hkeys
    · simp only [Api.deleteConversation, hl]
      exact lookup_eraseEntry_ne _ hk

theorem deleteConversation_removes_history_only_witness :
    ((Ex.storeC.mockConversations.map Prod.fst).Nodup) ∧
    (((Api.deleteConversation "c" Ex.storeC).1 = true ↔
        (Ex.storeC.mockConversations.lookup "c").isSome) ∧
      (Api.deleteConversation "c" Ex.storeC).2.mockConversations.lookup "c" = none ∧
      (Api.deleteConversation "c" Ex.storeC).2.sessionIdMap = Ex.storeC.sessionIdMap ∧
      (∀ k, k ≠ "c" →
        (Api.deleteConversation "c" Ex.storeC).2.mockConversations.lookup k =
          Ex.storeC.mockConversations.lookup k)) :=
  ⟨by decide, deleteConversation_removes_history_only "c" Ex.storeC (by decide)⟩

/-- C7 counterexample: deleting conversation `"c"` reports success, yet the
session binding of `"c"` is still in `sessionIdMap` afterwards — the claim
that `deleteConversation` removes the session binding is false. -/
theorem deleteConversation_keeps_binding_counterexample :
    (Api.deleteConversation "c" Ex.storeC).1 = true ∧
    (Api.deleteConversation "c" Ex.storeC).2.sessionIdMap.lookup "c" = some "s1" := by
  constructor
  · decide
  · decide

/-- C3 (amended): in `apiSendMessage` of `demo.tsx` — which implements the
duplicate-submission guard — two sends of identical text to the same
conversation whose clock readings differ by less than 5000 ms append at most
one user message across the two calls, and exactly one when the guard did not
already fire on the first call. (The api module's `sendMessage` has no such
guard; see the counterexample.) -/
theorem apiSendMessage_duplicate_guard (message conversationId : String)
    (t1 t1b r1 t2 t2b r2 : Nat) (o1 o2 : FetchOutcome) (s : Demo.DemoStore)
    (h12 : t1 ≤ t2) (hlt : t2 - t1 < 5000) :
    (Demo.getConversationHistory
        (Demo.apiSendMessage message conversationId t2 t2b r2 o2
          (Demo.apiSendMessage message conversationId t1 t1b r1 o1 s).2.2).2.2
        conversationId).countP (fun m => m.isUser) ≤
      (Demo.getConversationHistory s conversationId).countP (fun m => m.isUser) + 1 ∧
    (Demo.hasDuplicateMessage (Demo.getConversationHistory s conversationId) message t1 =
        false →
      (Demo.getConversationHistory
          (Demo.apiSendMessage message conversationId t2 t2b r2 o2
            (Demo.apiSendMessage message conversationId t1 t1b r1 o1 s).2.2).2.2
          conversationId).countP (fun m => m.isUser) =
        (Demo.getConversationHistory s conversationId).countP (fun m => m.isUser) + 1) := by
  obtain ⟨m1, hm1, hh1⟩ := apiSendMessage_hist message conversationId t1 t1b r1 o1 s
  obtain ⟨m2, hm2, hh2⟩ := apiSendMessage_hist message conversationId t2 t2b r2 o2
    (Demo.apiSendMessage message conversationId t1 t1b r1 o1 s).2.2
  rw [hh1] at hh2
  cases hd0 : Demo.hasDuplicateMessage (Demo.getConversationHistory s conversationId)
      message t1 with
  | true =>
    simp only [hd0, if_true] at hh2
    refine ⟨?_, fun hfalse => Bool.noConfusion hfalse⟩
    rw [hh2]
    cases hd1 : Demo.hasDuplicateMessage
        (Demo.getConversationHistory s conversationId ++ [m1]) message t2 with
    | true =>
      simp [hd1, List.countP_append, List.countP_cons, hm1, hm2]
    | false =>
      simp [hd1, List.countP_append, List.countP_cons, hm1, hm2]
  | false =>
    rw [hd0, if_neg (show ¬ ((false : Bool) = true) by decide)] at hh2
    have hd1 : Demo.hasDuplicateMessage
        ((Demo.getConversationHistory s conversationId ++
          [{ id := "user-" ++ Nat.repr t1, content := message, isUser := true, timestamp := t1 }]) ++
          [m1]) message t2 = true := by
      simp only [Demo.hasDuplicateMessage]
      apply List.any_eq_true.mpr
      refine ⟨{ id := "user-" ++ Nat.repr t1, content := message, isUser := true, timestamp := t1 }, by simp, ?_⟩
      simp [hlt]
    rw [hd1, if_pos (show (true : Bool) = true from rfl)] at hh2
    rw [hh2]
    constructor
    · simp [List.countP_append, List.countP_cons, hm1, hm2]
    · intro _
      simp [List.countP_append, List.countP_cons, hm1, hm2]

theorem apiSendMessage_duplicate_guard_witness :
    ((1000 : Nat) ≤ 2000 ∧ (2000 : Nat) - 1000 < 5000) ∧
    ((Demo.getConversationHistory
        (Demo.apiSendMessage "hi" "0" 2000 2001 0 (.ok { reply := "r2", session_id := none })
          (Demo.apiSendMessage "hi" "0" 1000 1001 0 (.ok { reply := "r1", session_id := none })
            Ex.emptyDemoStore).2.2).2.2
        "0").countP (fun m => m.isUser) ≤
      (Demo.getConversationHistory Ex.emptyDemoStore "0").countP (fun m => m.isUser) + 1 ∧
    (Demo.hasDuplicateMessage (Demo.getConversationHistory Ex.emptyDemoStore "0") "hi" 1000 =
        false →
      (Demo.getConversationHistory
          (Demo.apiSendMessage "hi" "0" 2000 2001 0 (.ok { reply := "r2", session_id := none })
            (Demo.apiSendMessage "hi" "0" 1000 1001 0 (.ok { reply := "r1", session_id := none })
              Ex.emptyDemoStore).2.2).2.2
          "0").countP (fun m => m.isUser) =
        (Demo.getConversationHistory Ex.emptyDemoStore "0").countP (fun m => m.isUser) + 1)) :=
  ⟨⟨by decide, by decide⟩,
   apiSendMessage_duplicate_guard "hi" "0" 1000 1001 0 2000 2001 0
     (.ok { reply := "r1", session_id := none }) (.ok { reply := "r2", session_id := none })
     Ex.emptyDemoStore (by decide) (by decide)⟩

/-- C3 counterexample: the api module's `sendMessage` appends the user message
unconditionally: sending `"hi"` twice one second apart (well within 5 seconds)
leaves two user messages in the conversation, refuting the claim as stated. -/
theorem sendMessage_no_duplicate_guard_counterexample :
    (Api.getConversationHistory
        (Api.sendMessage "hi" "1" 2000 2001 0 (.ok { reply := "r2", session_id := none })
          (Api.sendMessage "hi" "1" 1000 1001 0 (.ok { reply := "r1", session_id := none })
            (Api.initialState 3600000)).2.2).2.2 "1").countP (fun m => m.isUser) = 2 ∧
    ¬ ((Api.getConversationHistory
        (Api.sendMessage "hi" "1" 2000 2001 0 (.ok { reply := "r2", session_id := none })
          (Api.sendMessage "hi" "1" 1000 1001 0 (.ok { reply := "r1", session_id := none })
            (Api.initialState 3600000)).2.2).2.2 "1").countP (fun m => m.isUser) = 1) := by
  exact ⟨by decide, by decide⟩

/-- C6: for every conversation key, the rendered history view (`bubbleItems`
over `getConversationHistory`) is sorted by message timestamp in ascending
order and contains no two entries with the same identifier (exact-identifier
duplicates are collapsed keeping the first occurrence in `dedupById`). The
view is a pure function of the store — the source sorts a fresh array produced
by `filter` — so the stored history is not mutated. -/
theorem getHistory_sorted_nodup (s : Demo.DemoStore) (conversationId : String) :
    (Demo.getHistory s conversationId).Pairwise (fun a b => a.timestamp ≤ b.timestamp) ∧
    ((Demo.getHistory s conversationId).map Message.id).Nodup := by
  constructor
  · haveI : IsTotal Message (fun a b => a.timestamp ≤ b.timestamp) :=
      ⟨fun a b => Nat.le_total a.timestamp b.timestamp⟩
    haveI : IsTrans Message (fun a b => a.timestamp ≤ b.timestamp) :=
      ⟨fun a b c hab hbc => Nat.le_trans hab hbc⟩
    exact List.sorted_insertionSort (fun a b : Message => a.timestamp ≤ b.timestamp)
      (Demo.dedupById (Demo.getConversationHistory s conversationId))
  · have hperm := List.perm_insertionSort (fun a b : Message => a.timestamp ≤ b.timestamp)
      (Demo.dedupById (Demo.getConversationHistory s conversationId))
    exact ((hperm.map Message.id).nodup_iff).mpr (dedupById_ids_nodup _)

/-- C8: whenever every stored history is non-empty (the store invariant, see
C10), `getAllConversations` returns one entry per stored conversation — its
keys are a permutation of the store's keys — sorted by last-message timestamp
descending, and every entry's title is the derived title the specification
describes. -/
theorem getAllConversations_spec (s : Api.ApiState)
    (h : ∀ p ∈ s.mockConversations, p.2 ≠ []) :
    ∃ l, Api.getAllConversations s = some l ∧
      (l.map Api.ConvEntry.id).Perm (s.mockConversations.map Prod.fst) ∧
      l.Pairwise (fun a b => b.timestamp ≤ a.timestamp) ∧
      ∀ e ∈ l, ∃ p ∈ s.mockConversations, Api.convEntry p.1 p.2 = some e ∧
        e.title = derivedTitleSpec p.2 p.1 := by
  obtain ⟨l0, hm, hkeys, hmem⟩ := mapOrNone_convEntry s.mockConversations h
  refine ⟨List.insertionSort (fun a b => b.timestamp ≤ a.timestamp) l0, ?_, ?_, ?_, ?_⟩
  · rw [Api.getAllConversations, hm]
    rfl
  · have hperm := List.perm_insertionSort
      (fun a b : Api.ConvEntry => b.timestamp ≤ a.timestamp) l0
    exact (hperm.map Api.ConvEntry.id).trans (hkeys ▸ List.Perm.refl _)
  · haveI : IsTotal Api.ConvEntry (fun a b => b.timestamp ≤ a.timestamp) :=
      ⟨fun a b => Nat.le_total b.timestamp a.timestamp⟩
    haveI : IsTrans Api.ConvEntry (fun a b => b.timestamp ≤ a.timestamp) :=
      ⟨fun a b c hab hbc => Nat.le_trans hbc hab⟩
    exact List.sorted_insertionSort _ _
  · intro e he
    have he0 : e ∈ l0 := (List.perm_insertionSort _ _).mem_iff.mp he
    obtain ⟨p, hp, hpe⟩ := hmem e he0
    refine ⟨p, hp, hpe, ?_⟩
    cases hgl : p.2.getLast? with
    | none =>
      rw [Api.convEntry, hgl] at hpe
      exact Option.noConfusion hpe
    | some last =>
      rw [Api.convEntry, hgl] at hpe
      have he2 := Option.some.inj hpe
      rw [← he2]
      rfl

theorem getAllConversations_spec_witness :
    (∀ p ∈ (Api.initialState 3600000).mockConversations, p.2 ≠ []) ∧
    (∃ l, Api.getAllConversations (Api.initialState 3600000) = some l ∧
      (l.map Api.ConvEntry.id).Perm ((Api.initialState 3600000).mockConversations.map Prod.fst) ∧
      l.Pairwise (fun a b => b.timestamp ≤ a.timestamp) ∧
      ∀ e ∈ l, ∃ p ∈ (Api.initialState 3600000).mockConversations,
        Api.convEntry p.1 p.2 = some e ∧ e.title = derivedTitleSpec p.2 p.1) :=
  ⟨by decide, getAllConversations_spec (Api.initialState 3600000) (by decide)⟩

/-- C10: in every reachable state of the api module store, every stored
conversation key maps to a non-empty message list (the initial conversation,
`createNewConversation` and `sendMessage` all leave at least one message), so
`getAllConversations` — which reads the last message of every conversation —
is always defined and never fails. -/
theorem reachable_histories_nonempty (s : Api.ApiState) (h : Api.Reachable s) :
    (∀ p ∈ s.mockConversations, p.2 ≠ []) ∧ (Api.getAllConversations s).isSome := by
  obtain ⟨t0, ops, rfl⟩ := h
  have h1 : ∀ p ∈ (Api.applyOps t0 ops).mockConversations, p.2 ≠ [] := by
    apply foldl_nonempty
    intro p hp
    simp only [Api.initialState, List.mem_singleton] at hp
    rw [hp]
    simp
  refine ⟨h1, ?_⟩
  obtain ⟨l0, hm, _, _⟩ := mapOrNone_convEntry _ h1
  rw [Api.getAllConversations, hm]
  rfl

theorem reachable_histories_nonempty_witness :
    Api.Reachable (Api.applyOps 0 [Api.ApiOp.send "hi" "1" 10 11 0 (.fail "x")]) ∧
    ((∀ p ∈ (Api.applyOps 0 [Api.ApiOp.send "hi" "1" 10 11 0 (.fail "x")]).mockConversations,
        p.2 ≠ []) ∧
      (Api.getAllConversations
        (Api.applyOps 0 [Api.ApiOp.send "hi" "1" 10 11 0 (.fail "x")])).isSome) :=
  ⟨⟨0, [Api.ApiOp.send "hi" "1" 10 11 0 (.fail "x")], rfl⟩,
   reachable_histories_nonempty _ ⟨0, [Api.ApiOp.send "hi" "1" 10 11 0 (.fail "x")], rfl⟩⟩

/-- C9 (amended): message identifiers are unique within every conversation
provided the wall-clock readings of successive operations are strictly
increasing (`opsWF` — no two `Date.now()` readings in the same millisecond).
When several messages are created within the same clock millisecond the
`Date.now()`-derived identifiers DO collide — see the counterexample. -/
theorem api_message_ids_nodup (t0 : Nat) (ops : List Api.ApiOp)
    (h : Uniq.opsWF 0 ops = true) :
    ∀ p ∈ (Api.applyOps t0 ops).mockConversations, (p.2.map Message.id).Nodup :=
  Uniq.invAll_foldl ops 0 (Api.initialState t0) h (Uniq.invAll_initial t0)

theorem api_message_ids_nodup_witness :
    (Uniq.opsWF 0 [Api.ApiOp.send "a" "1" 10 11 0 (.ok { reply := "r", session_id := none }),
        Api.ApiOp.send "b" "1" 12 13 0 (.fail "x")] = true) ∧
    ∀ p ∈ (Api.applyOps 7
        [Api.ApiOp.send "a" "1" 10 11 0 (.ok { reply := "r", session_id := none }),
          Api.ApiOp.send "b" "1" 12 13 0 (.fail "x")]).mockConversations,
      (p.2.map Message.id).Nodup :=
  ⟨by decide, api_message_ids_nodup 7
    [Api.ApiOp.send "a" "1" 10 11 0 (.ok { reply := "r", session_id := none }),
      Api.ApiOp.send "b" "1" 12 13 0 (.fail "x")] (by decide)⟩

/-- C9 counterexample: two sends whose clock readings fall in the same
milliseconds (`Date.now() = 5` at both submits, `= 6` at both replies, with
different texts so the demo guard would not even apply) store the identifier
`user-5` twice and `system-6` twice in conversation `"1"` — identifiers are
not unique when several messages are created within the same millisecond. -/
theorem api_same_millisecond_collision :
    ¬ ((((Api.applyOps 0
        [Api.ApiOp.send "a" "1" 5 6 0 (.ok { reply := "r", session_id := none }),
          Api.ApiOp.send "b" "1" 5 6 0
            (.ok { reply := "r", session_id := none })]).mockConversations.lookup
        "1").getD []).map Message.id).Nodup := by
  decide


